import Mathlib

/-!
Verification of the chart-aggregation logic of datahop/matrix-charts.

The Go program (src/unnamed/part_000, with src/main.go a near-duplicate
lacking the battery page) loads JSON log files into a `matrix` record or a
`BatteryMeasurements` record and flattens them into chart series.

Embedding conventions:
* Go `int`/`int64` fields become `Int` (the program only subtracts
  timestamps; no claim concerns 64-bit wraparound).
* Go `float32 AvgSpeed` becomes `ℚ`; `fmt.Sprintf("%.1f", ·)` followed by
  `strconv.ParseFloat` is modelled at the level of tenths (an `Int` count
  of tenths produced by round-to-nearest, ties-to-even — the rounding Go's
  fixed-precision formatting performs on the value — and an `Option ℚ`
  reparse whose failure case the code maps to `0`).
* Go `map[string]V` becomes an association list `List (String × V)`
  recording one traversal order; Go leaves that order unspecified, which is
  exactly what claim C9 is about.
* `ioutil.ReadFile` and `json.Unmarshal` are standard-library
  collaborators, not repository code; `renderMatrixPage` is parameterized
  by a read function `String → Option String` and an unmarshal function
  `String → Option matrix`, and `log.Fatal` paths are modelled as an error
  result carrying no file writes.
-/

/-- Embedding of Go struct `ContentMatrix` (src/unnamed/part_000). -/
structure ContentMatrix where
  Tag : String
  Size : Int
  AvgSpeed : ℚ
  DownloadStartedAt : Int
  DownloadFinishedAt : Int
  ProvidedBy : List String
  deriving DecidableEq, Repr

/-- Embedding of Go struct `ConnectionInfo` (src/unnamed/part_000). -/
structure ConnectionInfo where
  BLEDiscoveredAt : Int
  WifiConnectedAt : Int
  RSSI : Int
  Speed : Int
  Frequency : Int
  IPFSConnectedAt : Int
  DisconnectedAt : Int
  deriving DecidableEq, Repr

/-- Embedding of Go struct `DiscoveredNodeMatrix` (src/unnamed/part_000). -/
structure DiscoveredNodeMatrix where
  ConnectionAlive : Bool
  ConnectionSuccessCount : Int
  ConnectionFailureCount : Int
  LastSuccessfulConnectionDuration : Int
  BLEDiscoveredAt : Int
  WifiConnectedAt : Int
  RSSI : Int
  Speed : Int
  Frequency : Int
  IPFSConnectedAt : Int
  DiscoveryDelays : List Int
  ConnectionHistory : List ConnectionInfo
  deriving DecidableEq, Repr

/-- Embedding of Go struct `matrix` (src/unnamed/part_000).  The two Go
maps are embedded as association lists fixing one traversal order. -/
structure matrix where
  ContentMatrix : List (String × ContentMatrix)
  NodeMatrix : List (String × DiscoveredNodeMatrix)
  TotalUptime : Int
  deriving DecidableEq, Repr

/-- Embedding of Go struct `Measurement` (src/unnamed/part_000). -/
structure Measurement where
  DataTransfer : String
  TransferInterval : String
  BatteryConsumption : String
  deriving DecidableEq, Repr

/-- Embedding of Go struct `BatteryMeasurements` (src/unnamed/part_000). -/
structure BatteryMeasurements where
  BatteryMeasurement : List Measurement
  deriving DecidableEq, Repr

/-- Embedding of Go `bleToWifi` (src/unnamed/part_000 lines 173-216):
the `(xAxis, yAxis)` pair the function passes to `SetXAxis`/`AddSeries`.
For every node, for every connection-history entry with
`WifiConnectedAt != 0`, it appends `len(xAxis)` to the x-axis and
`WifiConnectedAt - BLEDiscoveredAt` to the y-axis. -/
def bleToWifi (data : matrix) : List Nat × List Int :=
  data.NodeMatrix.foldl
    (fun axes v =>
      v.2.ConnectionHistory.foldl
        (fun axes k =>
          if k.WifiConnectedAt ≠ 0 then
            (axes.1 ++ [axes.1.length], axes.2 ++ [k.WifiConnectedAt - k.BLEDiscoveredAt])
          else axes)
        axes)
    ([], [])

/-- The y-values `bleToWifi` emits, written directly as a flat map:
for each node in traversal order, the Wifi-connection delays of its
history entries whose `WifiConnectedAt` is nonzero. -/
def wifiDelays (nodes : List (String × DiscoveredNodeMatrix)) : List Int :=
  nodes.flatMap fun v =>
    (v.2.ConnectionHistory.filter fun k => k.WifiConnectedAt ≠ 0).map
      fun k => k.WifiConnectedAt - k.BLEDiscoveredAt

theorem bleToWifi_inner_char (hist : List ConnectionInfo)
    (xs : List Nat) (ys : List Int) (h : xs = List.range ys.length) :
    hist.foldl
      (fun axes k =>
        if k.WifiConnectedAt ≠ 0 then
          (axes.1 ++ [axes.1.length], axes.2 ++ [k.WifiConnectedAt - k.BLEDiscoveredAt])
        else axes)
      (xs, ys)
    = (List.range (ys ++ (hist.filter fun k => k.WifiConnectedAt ≠ 0).map
          (fun k => k.WifiConnectedAt - k.BLEDiscoveredAt)).length,
        ys ++ (hist.filter fun k => k.WifiConnectedAt ≠ 0).map
          (fun k => k.WifiConnectedAt - k.BLEDiscoveredAt)) := by
  induction hist generalizing xs ys with
  | nil => simpa using h.symm ▸ rfl
  | cons k rest ih =>
    by_cases hk : k.WifiConnectedAt = 0
    · rw [List.foldl_cons, if_neg (by simp [hk]), ih xs ys h]
      simp [List.filter_cons, hk]
    · rw [List.foldl_cons, if_pos hk,
        ih (xs ++ [xs.length]) (ys ++ [k.WifiConnectedAt - k.BLEDiscoveredAt])
          (by rw [h]; simp [List.range_succ])]
      simp [hk, List.filter_cons]

theorem bleToWifi_outer_char (nodes : List (String × DiscoveredNodeMatrix))
    (xs : List Nat) (ys : List Int) (h : xs = List.range ys.length) :
    nodes.foldl
      (fun axes v =>
        v.2.ConnectionHistory.foldl
          (fun axes k =>
            if k.WifiConnectedAt ≠ 0 then
              (axes.1 ++ [axes.1.length], axes.2 ++ [k.WifiConnectedAt - k.BLEDiscoveredAt])
            else axes)
          axes)
      (xs, ys)
    = (List.range (ys ++ wifiDelays nodes).length, ys ++ wifiDelays nodes) := by
  induction nodes generalizing xs ys with
  | nil => simp [wifiDelays, h]
  | cons v rest ih =>
    simp only [List.foldl_cons]
    rw [h, bleToWifi_inner_char _ _ _ rfl,
      ih _ _ rfl]
    simp [wifiDelays, List.flatMap_cons, List.append_assoc]

/-- Characterization of `bleToWifi`: the y-axis is exactly `wifiDelays`
and the x-axis is `0, 1, ..., n-1`. -/
theorem bleToWifi_char (data : matrix) :
    bleToWifi data
      = (List.range (wifiDelays data.NodeMatrix).length, wifiDelays data.NodeMatrix) := by
  unfold bleToWifi
  rw [bleToWifi_outer_char data.NodeMatrix [] [] rfl]
  simp

/-- Embedding of Go `bleToIpfs` (src/unnamed/part_000 lines 218-258):
for every node, for every value in `DiscoveryDelays`, it appends
`len(xAxis)` to the x-axis and the delay itself to the y-axis. -/
def bleToIpfs (data : matrix) : List Nat × List Int :=
  data.NodeMatrix.foldl
    (fun axes v =>
      v.2.DiscoveryDelays.foldl
        (fun axes k => (axes.1 ++ [axes.1.length], axes.2 ++ [k]))
        axes)
    ([], [])

/-- The y-values `bleToIpfs` emits: the concatenation of every node's
`DiscoveryDelays` in traversal order. -/
def ipfsDelays (nodes : List (String × DiscoveredNodeMatrix)) : List Int :=
  nodes.flatMap fun v => v.2.DiscoveryDelays

theorem bleToIpfs_inner_char (delays : List Int)
    (xs : List Nat) (ys : List Int) (h : xs = List.range ys.length) :
    delays.foldl (fun axes k => (axes.1 ++ [axes.1.length], axes.2 ++ [k])) (xs, ys)
    = (List.range (ys ++ delays).length, ys ++ delays) := by
  induction delays generalizing xs ys with
  | nil => simpa using h.symm ▸ rfl
  | cons k rest ih =>
    rw [List.foldl_cons,
      ih (xs ++ [xs.length]) (ys ++ [k]) (by rw [h]; simp [List.range_succ])]
    simp

theorem bleToIpfs_outer_char (nodes : List (String × DiscoveredNodeMatrix))
    (xs : List Nat) (ys : List Int) (h : xs = List.range ys.length) :
    nodes.foldl
      (fun axes v =>
        v.2.DiscoveryDelays.foldl
          (fun axes k => (axes.1 ++ [axes.1.length], axes.2 ++ [k]))
          axes)
      (xs, ys)
    = (List.range (ys ++ ipfsDelays nodes).length, ys ++ ipfsDelays nodes) := by
  induction nodes generalizing xs ys with
  | nil => simp [ipfsDelays, h]
  | cons v rest ih =>
    simp only [List.foldl_cons]
    rw [h, bleToIpfs_inner_char _ _ _ rfl, ih _ _ rfl]
    simp [ipfsDelays, List.flatMap_cons, List.append_assoc]

/-- Characterization of `bleToIpfs`: the y-axis is exactly `ipfsDelays`
and the x-axis is `0, 1, ..., n-1`. -/
theorem bleToIpfs_char (data : matrix) :
    bleToIpfs data
      = (List.range (ipfsDelays data.NodeMatrix).length, ipfsDelays data.NodeMatrix) := by
  unfold bleToIpfs
  rw [bleToIpfs_outer_char data.NodeMatrix [] [] rfl]
  simp

/-- Embedding of Go `rssiSpeed` (src/unnamed/part_000 lines 267-285): the
`items` list the function passes to `AddSeries`; for every node, for every
connection-history entry, one two-dimensional point `(RSSI, Speed)`. -/
def rssiSpeed (data : matrix) : List (Int × Int) :=
  data.NodeMatrix.foldl
    (fun items v =>
      v.2.ConnectionHistory.foldl
        (fun items k => items ++ [(k.RSSI, k.Speed)])
        items)
    []

/-- The points `rssiSpeed` emits, written directly as a flat map. -/
def rssiSpeedPairs (nodes : List (String × DiscoveredNodeMatrix)) : List (Int × Int) :=
  nodes.flatMap fun v => v.2.ConnectionHistory.map fun k => (k.RSSI, k.Speed)

theorem rssiSpeed_inner_char (hist : List ConnectionInfo) (items : List (Int × Int)) :
    hist.foldl (fun items k => items ++ [(k.RSSI, k.Speed)]) items
    = items ++ hist.map fun k => (k.RSSI, k.Speed) := by
  induction hist generalizing items with
  | nil => simp
  | cons k rest ih => rw [List.foldl_cons, ih]; simp

theorem rssiSpeed_outer_char (nodes : List (String × DiscoveredNodeMatrix))
    (items : List (Int × Int)) :
    nodes.foldl
      (fun items v =>
        v.2.ConnectionHistory.foldl
          (fun items k => items ++ [(k.RSSI, k.Speed)])
          items)
      items
    = items ++ rssiSpeedPairs nodes := by
  induction nodes generalizing items with
  | nil => simp [rssiSpeedPairs]
  | cons v rest ih =>
    rw [List.foldl_cons, rssiSpeed_inner_char, ih]
    simp [rssiSpeedPairs, List.flatMap_cons]

/-- Characterization of `rssiSpeed`. -/
theorem rssiSpeed_char (data : matrix) :
    rssiSpeed data = rssiSpeedPairs data.NodeMatrix := by
  unfold rssiSpeed
  rw [rssiSpeed_outer_char]
  simp

/-- Model of the decimal rounding performed by Go's fixed-precision float
formatting (`fmt.Sprintf` with precision 1 delegates to
`strconv.FormatFloat`, which rounds the value to the nearest decimal,
ties to even): the nearest integer to `q`, ties to even. -/
def roundTiesEven (q : ℚ) : Int :=
  let n := ⌊q⌋
  let r := q - n
  if r < 1 / 2 then n
  else if 1 / 2 < r then n + 1
  else if n % 2 = 0 then n else n + 1

/-- Model of `fmt.Sprintf("%.1f", v)` (src/unnamed/part_000 line 311): the
formatted string, represented by its value in tenths. -/
def sprintfOneDec (q : ℚ) : Int := roundTiesEven (q * 10)

/-- Model of `strconv.ParseFloat` (src/unnamed/part_000 line 312) applied
to a one-decimal formatted string represented by its value `n` in tenths:
parsing such a string always succeeds and yields `n / 10`.  The `Option`
captures the error result the Go code receives and discards. -/
def parseFloatOneDec (n : Int) : Option ℚ := some ((n : ℚ) / 10)

/-- `AvgSpeed` rounded to one decimal place (ties to even), the value the
spec says each download-speed point must carry. -/
def roundedToOneDecimal (q : ℚ) : ℚ := (roundTiesEven (q * 10) : ℚ) / 10

/-- Embedding of Go `downloadSpeed` (src/unnamed/part_000 lines 287-324):
for every entry of the `ContentMatrix` map, append `len(xAxis)` to the
x-axis, format `AvgSpeed` to one decimal, reparse it, and append the
parsed value to the y-axis; a failed reparse contributes Go's zero value
for `float64` (`(… ).getD 0` mirrors `f, _ := strconv.ParseFloat(s, 64)`
followed by unconditional use of `f`). -/
def downloadSpeed (data : matrix) : List Nat × List ℚ :=
  data.ContentMatrix.foldl
    (fun axes v =>
      (axes.1 ++ [axes.1.length],
        axes.2 ++ [(parseFloatOneDec (sprintfOneDec v.2.AvgSpeed)).getD 0]))
    ([], [])

/-- The y-values the spec asks of `downloadSpeed`: each entry's `AvgSpeed`
rounded to one decimal place. -/
def speedValues (contents : List (String × ContentMatrix)) : List ℚ :=
  contents.map fun v => roundedToOneDecimal v.2.AvgSpeed

theorem downloadSpeed_fold_char (contents : List (String × ContentMatrix))
    (xs : List Nat) (ys : List ℚ) (h : xs = List.range ys.length) :
    contents.foldl
      (fun axes v =>
        (axes.1 ++ [axes.1.length],
          axes.2 ++ [(parseFloatOneDec (sprintfOneDec v.2.AvgSpeed)).getD 0]))
      (xs, ys)
    = (List.range (ys ++ speedValues contents).length, ys ++ speedValues contents) := by
  induction contents generalizing xs ys with
  | nil => simpa [speedValues] using h.symm ▸ rfl
  | cons v rest ih =>
    rw [List.foldl_cons,
      ih (xs ++ [xs.length]) (ys ++ [(parseFloatOneDec (sprintfOneDec v.2.AvgSpeed)).getD 0])
        (by rw [h]; simp [List.range_succ])]
    simp [speedValues, parseFloatOneDec, roundedToOneDecimal, sprintfOneDec]

/-- Characterization of `downloadSpeed`: one point per `ContentMatrix`
entry, y-value the entry's `AvgSpeed` rounded to one decimal place, x-axis
`0, 1, ..., n-1`; the reparse never fails, so the zero fallback is dead. -/
theorem downloadSpeed_char (data : matrix) :
    downloadSpeed data
      = (List.range (speedValues data.ContentMatrix).length, speedValues data.ContentMatrix) := by
  unfold downloadSpeed
  rw [downloadSpeed_fold_char data.ContentMatrix [] [] rfl]
  simp

/-- Embedding of the bar chart `transferIntervalToBatteryPercentage`
builds: the x-axis categories passed to `SetXAxis` and the two named
series passed to `AddSeries` (each bar datum is the raw
`BatteryConsumption` string). -/
structure BarChart where
  xAxis : List String
  series : List (String × List String)
  deriving DecidableEq, Repr

/-- Embedding of Go `transferIntervalToBatteryPercentage`
(src/unnamed/part_000 lines 114-146): bucket each measurement by
`DataTransfer` ("10" → `tenMbItems`, else "100" → `hundredMbItems`, else
drop), then build the bar chart with fixed x-categories "40s", "120s" and
the series "10Mb", "100Mb". -/
def transferIntervalToBatteryPercentage (data : BatteryMeasurements) : BarChart :=
  let items := data.BatteryMeasurement.foldl
    (fun (acc : List String × List String) v =>
      if v.DataTransfer = "10" then (acc.1 ++ [v.BatteryConsumption], acc.2)
      else if v.DataTransfer = "100" then (acc.1, acc.2 ++ [v.BatteryConsumption])
      else acc)
    ([], [])
  { xAxis := ["40s", "120s"],
    series := [("10Mb", items.1), ("100Mb", items.2)] }

theorem battery_fold_char (ms : List Measurement) (tens hundreds : List String) :
    ms.foldl
      (fun (acc : List String × List String) v =>
        if v.DataTransfer = "10" then (acc.1 ++ [v.BatteryConsumption], acc.2)
        else if v.DataTransfer = "100" then (acc.1, acc.2 ++ [v.BatteryConsumption])
        else acc)
      (tens, hundreds)
    = (tens ++ ((ms.filter fun v => v.DataTransfer = "10").map Measurement.BatteryConsumption),
        hundreds ++ ((ms.filter fun v => v.DataTransfer = "100").map Measurement.BatteryConsumption)) := by
  induction ms generalizing tens hundreds with
  | nil => simp
  | cons v rest ih =>
    by_cases h10 : v.DataTransfer = "10"
    · rw [List.foldl_cons, if_pos h10, ih]
      simp [List.filter_cons, h10]
    · by_cases h100 : v.DataTransfer = "100"
      · rw [List.foldl_cons, if_neg h10, if_pos h100, ih]
        simp [List.filter_cons, h10, h100]
      · rw [List.foldl_cons, if_neg h10, if_neg h100, ih]
        simp [List.filter_cons, h10, h100]

/-- Characterization of the battery aggregator: fixed x-categories and the
two series as filters of the input. -/
theorem transferIntervalToBatteryPercentage_char (data : BatteryMeasurements) :
    transferIntervalToBatteryPercentage data
      = { xAxis := ["40s", "120s"],
          series :=
            [("10Mb", (data.BatteryMeasurement.filter fun v => v.DataTransfer = "10").map
                Measurement.BatteryConsumption),
             ("100Mb", (data.BatteryMeasurement.filter fun v => v.DataTransfer = "100").map
                Measurement.BatteryConsumption)] } := by
  unfold transferIntervalToBatteryPercentage
  rw [battery_fold_char]
  simp

/-- The two error kinds of the load/render pipeline: `IOError` for a
missing/unreadable (or uncreatable) file, `ParseError` for JSON that does
not match the expected shape.  In Go both are `log.Fatal` paths that
terminate the process. -/
inductive RenderError where
  | IOError
  | ParseError
  deriving DecidableEq, Repr

/-- The page `renderMatrixPage` composes: the page title and the four
chart series added by `page.AddCharts`. -/
structure MatrixPage where
  pageTitle : String
  bleToWifiChart : List Nat × List Int
  bleToIpfsChart : List Nat × List Int
  rssiSpeedChart : List (Int × Int)
  downloadSpeedChart : List Nat × List ℚ
  deriving DecidableEq, Repr

/-- The log-file path pattern `logs/<name>.log`. -/
def logPath (pageName : String) : String := "logs/" ++ pageName ++ ".log"

/-- The output path pattern `html/<name>.html`. -/
def htmlPath (pageName : String) : String := "html/" ++ pageName ++ ".html"

/-- Embedding of Go `renderMatrixPage` (src/unnamed/part_000 lines
148-171; `renderPage` in src/main.go is identical).  `readFile` models
`ioutil.ReadFile` (`none` = read error) and `unmarshal` models
`json.Unmarshal` into `matrix` (`none` = shape mismatch).  The result is
the list of output files created (`os.Create` + `page.Render`) and the
error, if any, on which the Go code calls `log.Fatal` and terminates
before creating the output file. -/
def renderMatrixPage (readFile : String → Option String)
    (unmarshal : String → Option matrix) (pageName : String) :
    List (String × MatrixPage) × Option RenderError :=
  match readFile (logPath pageName) with
  | none => ([], some RenderError.IOError)
  | some file =>
    match unmarshal file with
    | none => ([], some RenderError.ParseError)
    | some data =>
      ([(htmlPath pageName,
          { pageTitle := "Datahop Matrix Charts",
            bleToWifiChart := bleToWifi data,
            bleToIpfsChart := bleToIpfs data,
            rssiSpeedChart := rssiSpeed data,
            downloadSpeedChart := downloadSpeed data })], none)

/-- The fixed matrix log names of `matrixFiles` (src/unnamed/part_000). -/
def matrixFiles : List String :=
  ["zero_host_downloader", "zero_client_uploader", "five_host_downloader", "five_client_uploader"]

/-- Embedding of the matrix-page loop of Go `main`: render each page in
order; on the first error stop (the Go code calls `log.Fatal`, which
terminates the process), reporting the files written so far and the
error. -/
def renderAllMatrixPages (readFile : String → Option String)
    (unmarshal : String → Option matrix) :
    List String → List (String × MatrixPage) × Option RenderError
  | [] => ([], none)
  | n :: rest =>
    let r := renderMatrixPage readFile unmarshal n
    match r.2 with
    | some e => (r.1, some e)
    | none =>
      let r' := renderAllMatrixPages readFile unmarshal rest
      (r.1 ++ r'.1, r'.2)

/-- The one-node matrix of the round-trip scenario: a connection history
with entries `{BLEDiscoveredAt:100, WifiConnectedAt:105}` and
`{BLEDiscoveredAt:200, WifiConnectedAt:0}`. -/
def roundTripMatrix : matrix :=
  { ContentMatrix := [],
    NodeMatrix :=
      [("node1",
        { ConnectionAlive := false, ConnectionSuccessCount := 0,
          ConnectionFailureCount := 0, LastSuccessfulConnectionDuration := 0,
          BLEDiscoveredAt := 0, WifiConnectedAt := 0, RSSI := 0, Speed := 0,
          Frequency := 0, IPFSConnectedAt := 0, DiscoveryDelays := [],
          ConnectionHistory :=
            [{ BLEDiscoveredAt := 100, WifiConnectedAt := 105, RSSI := 0,
               Speed := 0, Frequency := 0, IPFSConnectedAt := 0, DisconnectedAt := 0 },
             { BLEDiscoveredAt := 200, WifiConnectedAt := 0, RSSI := 0,
               Speed := 0, Frequency := 0, IPFSConnectedAt := 0, DisconnectedAt := 0 }] })],
    TotalUptime := 0 }

/-- C1: for every loaded Matrix, the BLE-to-Wifi aggregator emits exactly
one point per connection-history entry (across all nodes) whose
`WifiConnectedAt` is nonzero, with y-value `WifiConnectedAt -
BLEDiscoveredAt` (negative values passed through), and no point for
entries with `WifiConnectedAt == 0`; on the round-trip scenario it emits
exactly one point with value 5. -/
theorem C1_bleToWifi_points (data : matrix) :
    (bleToWifi data).2 = wifiDelays data.NodeMatrix
    ∧ bleToWifi roundTripMatrix = ([0], [5]) := by
  refine ⟨?_, by decide⟩
  rw [bleToWifi_char]

/-- A matrix with a single content entry whose `AvgSpeed` is 3.14. -/
def avgSpeedExampleMatrix : matrix :=
  { ContentMatrix :=
      [("tag1",
        { Tag := "tag1", Size := 0, AvgSpeed := 314 / 100,
          DownloadStartedAt := 0, DownloadFinishedAt := 0, ProvidedBy := [] })],
    NodeMatrix := [], TotalUptime := 0 }

/-- C2: the download-speed aggregator emits exactly one point per
`ContentMatrix` entry, each y-value the entry's `AvgSpeed` rounded to one
decimal place (format to one decimal and reparse, a reparse failure
yielding zero — the embedding carries that fallback and the theorem shows
it never fires); `AvgSpeed = 3.14` yields y-value 3.1. -/
theorem C2_downloadSpeed_rounded (data : matrix) :
    (downloadSpeed data).2 = data.ContentMatrix.map (fun v => roundedToOneDecimal v.2.AvgSpeed)
    ∧ (downloadSpeed data).2.length = data.ContentMatrix.length
    ∧ (downloadSpeed avgSpeedExampleMatrix).2 = [31 / 10] := by
  refine ⟨?_, ?_, ?_⟩
  · rw [downloadSpeed_char]; rfl
  · rw [downloadSpeed_char]; simp [speedValues]
  · rw [downloadSpeed_char]
    show speedValues avgSpeedExampleMatrix.ContentMatrix = [31 / 10]
    simp only [speedValues, avgSpeedExampleMatrix, List.map_cons, List.map_nil]
    norm_num [roundedToOneDecimal, roundTiesEven]

/-- C3: the battery aggregator puts measurements with `DataTransfer =
"10"` exactly in the "10Mb" series and those with `"100"` exactly in the
"100Mb" series, in input order; any other value (e.g. "50") lands in
neither series, and the aggregator is total (never fails). -/
theorem C3_battery_bucketing (data : BatteryMeasurements) :
    (transferIntervalToBatteryPercentage data).series
      = [("10Mb",
          (data.BatteryMeasurement.filter fun v => v.DataTransfer = "10").map
            Measurement.BatteryConsumption),
         ("100Mb",
          (data.BatteryMeasurement.filter fun v => v.DataTransfer = "100").map
            Measurement.BatteryConsumption)]
    ∧ transferIntervalToBatteryPercentage
        ⟨[{ DataTransfer := "50", TransferInterval := "40", BatteryConsumption := "7" }]⟩
      = { xAxis := ["40s", "120s"], series := [("10Mb", []), ("100Mb", [])] } := by
  refine ⟨?_, by decide⟩
  rw [transferIntervalToBatteryPercentage_char]

/-- C4: the BLE-to-IPFS aggregator emits exactly one point per value in
`DiscoveryDelays` summed over all nodes, y-value the delay itself,
unfiltered. -/
theorem C4_bleToIpfs_points (data : matrix) :
    (bleToIpfs data).2 = ipfsDelays data.NodeMatrix
    ∧ (bleToIpfs data).2.length
        = (data.NodeMatrix.map fun v => v.2.DiscoveryDelays.length).sum := by
  rw [bleToIpfs_char]
  exact ⟨rfl, List.length_flatMap _ _⟩

/-- C5: the RSSI-vs-Speed aggregator emits exactly one two-dimensional
point per connection-history entry summed over all nodes, with no
filtering, the coordinates being the entry's `(RSSI, Speed)`. -/
theorem C5_rssiSpeed_points (data : matrix) :
    rssiSpeed data
      = data.NodeMatrix.flatMap (fun v => v.2.ConnectionHistory.map fun k => (k.RSSI, k.Speed))
    ∧ (rssiSpeed data).length
        = (data.NodeMatrix.map fun v => v.2.ConnectionHistory.length).sum := by
  rw [rssiSpeed_char]
  refine ⟨rfl, ?_⟩
  unfold rssiSpeedPairs
  rw [List.length_flatMap]
  simp only [Function.comp_def, List.length_map]

/-- C10: for each line-chart aggregator the x-axis has the same length as
the y-axis and is exactly `0, 1, ..., n-1`: each appended x-value equals
the number of points emitted so far. -/
theorem C10_running_index (data : matrix) :
    (bleToWifi data).1 = List.range (bleToWifi data).2.length
    ∧ (bleToIpfs data).1 = List.range (bleToIpfs data).2.length
    ∧ (downloadSpeed data).1 = List.range (downloadSpeed data).2.length := by
  rw [bleToWifi_char, bleToIpfs_char, downloadSpeed_char]
  exact ⟨rfl, rfl, rfl⟩

/-- C6: when the log file of a page cannot be read, the load step signals
`IOError` and the run stops before `html/<name>.html` is created or
truncated: the per-page render produces no write, and the driver run
starting at that page produces no write either. -/
theorem C6_missing_file (readFile : String → Option String)
    (unmarshal : String → Option matrix) (pageName : String) (rest : List String)
    (h : readFile (logPath pageName) = none) :
    renderMatrixPage readFile unmarshal pageName = ([], some RenderError.IOError)
    ∧ renderAllMatrixPages readFile unmarshal (pageName :: rest)
        = ([], some RenderError.IOError) := by
  have h1 : renderMatrixPage readFile unmarshal pageName
      = ([], some RenderError.IOError) := by
    unfold renderMatrixPage
    rw [h]
  exact ⟨h1, by simp [renderAllMatrixPages, h1]⟩

theorem C6_missing_file_witness :
    (fun _ : String => (none : Option String)) (logPath "zero_host_downloader") = none
    ∧ (renderMatrixPage (fun _ => none) (fun _ => none) "zero_host_downloader"
          = ([], some RenderError.IOError)
        ∧ renderAllMatrixPages (fun _ => none) (fun _ => none) ["zero_host_downloader"]
          = ([], some RenderError.IOError)) :=
  ⟨rfl, C6_missing_file (fun _ => none) (fun _ => none) "zero_host_downloader" [] rfl⟩

/-- C7: when the log file's contents do not unmarshal into the expected
shape, the load step signals `ParseError` and the run stops before any
aggregator runs: the per-page render produces no write, and the driver
run starting at that page produces no write and renders no further
page. -/
theorem C7_parse_error (readFile : String → Option String)
    (unmarshal : String → Option matrix) (pageName content : String) (rest : List String)
    (hread : readFile (logPath pageName) = some content)
    (hparse : unmarshal content = none) :
    renderMatrixPage readFile unmarshal pageName = ([], some RenderError.ParseError)
    ∧ renderAllMatrixPages readFile unmarshal (pageName :: rest)
        = ([], some RenderError.ParseError) := by
  have h1 : renderMatrixPage readFile unmarshal pageName
      = ([], some RenderError.ParseError) := by
    simp [renderMatrixPage, hread, hparse]
  exact ⟨h1, by simp [renderAllMatrixPages, h1]⟩

theorem C7_parse_error_witness :
    (fun _ : String => some "not json") (logPath "zero_host_downloader") = some "not json"
    ∧ (fun _ : String => (none : Option matrix)) "not json" = none
    ∧ (renderMatrixPage (fun _ => some "not json") (fun _ => none) "zero_host_downloader"
          = ([], some RenderError.ParseError)
        ∧ renderAllMatrixPages (fun _ => some "not json") (fun _ => none)
            ["zero_host_downloader"]
          = ([], some RenderError.ParseError)) :=
  ⟨rfl, rfl,
    C7_parse_error (fun _ => some "not json") (fun _ => none)
      "zero_host_downloader" "not json" [] rfl rfl⟩

theorem batteryFields_filter_map (s : String) (ms ms' : List Measurement)
    (h : List.Forall₂
      (fun a b => a.DataTransfer = b.DataTransfer
        ∧ a.BatteryConsumption = b.BatteryConsumption) ms ms') :
    (ms.filter fun v => v.DataTransfer = s).map Measurement.BatteryConsumption
      = (ms'.filter fun v => v.DataTransfer = s).map Measurement.BatteryConsumption := by
  induction h with
  | nil => rfl
  | cons hab htail ih =>
    rename_i a b l1 l2
    obtain ⟨hd, hb⟩ := hab
    simp only [List.filter_cons, ← hd]
    by_cases hs : a.DataTransfer = s
    · simp [hs, hb, ih]
    · simp [hs, ih]

/-- C8: the battery bar chart's x-axis categories are the fixed labels
"40s" and "120s", and the chart does not depend on any measurement's
`TransferInterval`: two inputs whose measurements agree pointwise on
`DataTransfer` and `BatteryConsumption` produce identical charts. -/
theorem C8_battery_interval_independent (d d' : BatteryMeasurements)
    (h : List.Forall₂
      (fun a b => a.DataTransfer = b.DataTransfer
        ∧ a.BatteryConsumption = b.BatteryConsumption)
      d.BatteryMeasurement d'.BatteryMeasurement) :
    (transferIntervalToBatteryPercentage d).xAxis = ["40s", "120s"]
    ∧ transferIntervalToBatteryPercentage d = transferIntervalToBatteryPercentage d' := by
  refine ⟨by rw [transferIntervalToBatteryPercentage_char], ?_⟩
  rw [transferIntervalToBatteryPercentage_char, transferIntervalToBatteryPercentage_char]
  rw [batteryFields_filter_map "10" _ _ h, batteryFields_filter_map "100" _ _ h]

theorem C8_battery_interval_independent_witness :
    List.Forall₂
      (fun a b => a.DataTransfer = b.DataTransfer
        ∧ a.BatteryConsumption = b.BatteryConsumption)
      (BatteryMeasurements.mk
        [{ DataTransfer := "10", TransferInterval := "40", BatteryConsumption := "5" }]).BatteryMeasurement
      (BatteryMeasurements.mk
        [{ DataTransfer := "10", TransferInterval := "999", BatteryConsumption := "5" }]).BatteryMeasurement
    ∧ ((transferIntervalToBatteryPercentage
          ⟨[{ DataTransfer := "10", TransferInterval := "40", BatteryConsumption := "5" }]⟩).xAxis
        = ["40s", "120s"]
      ∧ transferIntervalToBatteryPercentage
          ⟨[{ DataTransfer := "10", TransferInterval := "40", BatteryConsumption := "5" }]⟩
        = transferIntervalToBatteryPercentage
          ⟨[{ DataTransfer := "10", TransferInterval := "999", BatteryConsumption := "5" }]⟩) :=
  ⟨List.Forall₂.cons ⟨rfl, rfl⟩ List.Forall₂.nil,
    C8_battery_interval_independent _ _ (List.Forall₂.cons ⟨rfl, rfl⟩ List.Forall₂.nil)⟩

/-- C9: for the BLE-to-Wifi and BLE-to-IPFS aggregators, the multiset of
emitted y-values is invariant under any permutation of the `NodeMatrix`
traversal order (each node's internal lists fixed). -/
theorem C9_traversal_order (cm : List (String × ContentMatrix)) (up : Int)
    (nodes nodes' : List (String × DiscoveredNodeMatrix)) (h : nodes.Perm nodes') :
    ((bleToWifi ⟨cm, nodes, up⟩).2 : Multiset Int)
        = ((bleToWifi ⟨cm, nodes', up⟩).2 : Multiset Int)
    ∧ ((bleToIpfs ⟨cm, nodes, up⟩).2 : Multiset Int)
        = ((bleToIpfs ⟨cm, nodes', up⟩).2 : Multiset Int) := by
  constructor
  · rw [bleToWifi_char, bleToWifi_char]
    exact Multiset.coe_eq_coe.mpr (h.flatMap_right _)
  · rw [bleToIpfs_char, bleToIpfs_char]
    exact Multiset.coe_eq_coe.mpr (h.flatMap_right _)

/-- A node whose only data is the discovery-delay list `[1]` and a history
entry connecting at Wifi time 3. -/
def nodeOne : DiscoveredNodeMatrix :=
  { ConnectionAlive := false, ConnectionSuccessCount := 0,
    ConnectionFailureCount := 0, LastSuccessfulConnectionDuration := 0,
    BLEDiscoveredAt := 0, WifiConnectedAt := 0, RSSI := 0, Speed := 0,
    Frequency := 0, IPFSConnectedAt := 0, DiscoveryDelays := [1],
    ConnectionHistory :=
      [{ BLEDiscoveredAt := 1, WifiConnectedAt := 3, RSSI := 0, Speed := 0,
         Frequency := 0, IPFSConnectedAt := 0, DisconnectedAt := 0 }] }

/-- A node whose only data is the discovery-delay list `[2]` and a history
entry connecting at Wifi time 9. -/
def nodeTwo : DiscoveredNodeMatrix :=
  { ConnectionAlive := false, ConnectionSuccessCount := 0,
    ConnectionFailureCount := 0, LastSuccessfulConnectionDuration := 0,
    BLEDiscoveredAt := 0, WifiConnectedAt := 0, RSSI := 0, Speed := 0,
    Frequency := 0, IPFSConnectedAt := 0, DiscoveryDelays := [2],
    ConnectionHistory :=
      [{ BLEDiscoveredAt := 4, WifiConnectedAt := 9, RSSI := 0, Speed := 0,
         Frequency := 0, IPFSConnectedAt := 0, DisconnectedAt := 0 }] }

theorem C9_traversal_order_witness :
    List.Perm [("a", nodeOne), ("b", nodeTwo)] [("b", nodeTwo), ("a", nodeOne)]
    ∧ (((bleToWifi ⟨[], [("a", nodeOne), ("b", nodeTwo)], 0⟩).2 : Multiset Int)
          = ((bleToWifi ⟨[], [("b", nodeTwo), ("a", nodeOne)], 0⟩).2 : Multiset Int)
      ∧ ((bleToIpfs ⟨[], [("a", nodeOne), ("b", nodeTwo)], 0⟩).2 : Multiset Int)
          = ((bleToIpfs ⟨[], [("b", nodeTwo), ("a", nodeOne)], 0⟩).2 : Multiset Int)) :=
  ⟨List.Perm.swap ("b", nodeTwo) ("a", nodeOne) [],
    C9_traversal_order [] 0 _ _ (List.Perm.swap ("b", nodeTwo) ("a", nodeOne) [])⟩
